import Mathlib

/-!
Verification development for the `ctap-types` crate: wire-level request and
response types for the FIDO CTAP1 (U2F) and CTAP2 authenticator protocols.

The embedding mirrors the Rust sources:
  * `src/cose.rs` — COSE public-key codec (canonical-order CBOR map decoder);
  * `src/operation.rs` — opcode registry (`Operation`, `VendorOperation`);
  * `src/ctap2.rs` — CTAP2 request decoder, response encoder, authenticator
    data encoder, error taxonomy;
  * `src/ctap2/make_credential.rs` — attested credential data encoder and the
    `Extensions` record;
  * `src/ctap2/large_blobs.rs` — large-blobs response record;
  * `src/ctap1.rs` — CTAP1 (U2F) APDU decoder and response encoder.

Modelling conventions:
  * Machine integers (`u8`, `u16`, `u32`, `i8`) are `Nat`/`Int`; where the
    source performs an `as` cast the model takes the value modulo `2 ^ w`.
  * Fixed-capacity `heapless` buffers (`Vec<u8, N>`, `Bytes<N>`) are
    `List Nat` together with explicit capacity checks; a capacity-checked
    write that the source `.unwrap()`s is modelled in `Option`, with `none`
    standing for the panic, while a write whose error the source propagates
    is modelled in `Except`.
  * CBOR maps are modelled at the serde data-model layer that the visitor in
    `src/cose.rs` actually sees: a list of (integer key, value) entries in
    wire order.  The byte-level framing of individual items is performed by
    the external `cbor-smol` crate; the key parser (`next_key::<i8>`) and the
    typed value parsers are modelled faithfully at this layer.
  * Generic calls into the external `cbor-smol` serializer/deserializer for
    whole sub-schema structures (the bodies of CTAP2 requests/responses) are
    taken as function parameters; the concrete instances needed by the
    claims (the large-blobs response, the make-credential extensions) are
    modelled down to the byte level.
-/

deriving instance DecidableEq for Except

/-! ## CBOR data model (serde layer) -/

/-- A CBOR value as seen by the serde data model: the fragment used by the
COSE key schema (integers, byte strings, text strings). -/
inductive CborValue where
  | int (i : Int)
  | bytes (b : List Nat)
  | text (s : String)
deriving DecidableEq, Repr

/-- One entry of a CBOR map with an integer key, in wire order. -/
abbrev Entry := Int × CborValue

/-! ## COSE key codec (`src/cose.rs`) -/

/-- Model of `enum Label` of `src/cose.rs`: the five known COSE key labels. -/
inductive Label where
  | kty
  | alg
  | crv
  | x
  | y
deriving DecidableEq, Repr

/-- Model of `Label as i8`: the discriminants `Kty = 1, Alg = 3, Crv = -1, X = -2, Y = -3`. -/
def Label.toI8 : Label → Int
  | .kty => 1
  | .alg => 3
  | .crv => -1
  | .x => -2
  | .y => -3

/-- Model of `impl TryFrom<i8> for Label` of `src/cose.rs`. -/
def Label.tryFrom (label : Int) : Option Label :=
  if label = 1 then some .kty
  else if label = 3 then some .alg
  else if label = -1 then some .crv
  else if label = -2 then some .x
  else if label = -3 then some .y
  else none

/-- Model of `enum Kty` of `src/cose.rs`: `Okp = 1, Ec2 = 2, Symmetric = 4`. -/
inductive Kty where
  | okp
  | ec2
  | symmetric
deriving DecidableEq, Repr

/-- The `repr(i8)` discriminant of `Kty`. -/
def Kty.toI8 : Kty → Int
  | .okp => 1
  | .ec2 => 2
  | .symmetric => 4

/-- Model of `enum Alg` of `src/cose.rs`: `Es256 = -7, EdDsa = -8, Totp = -9,
EcdhEsHkdf256 = -25`. -/
inductive Alg where
  | es256
  | edDsa
  | totp
  | ecdhEsHkdf256
deriving DecidableEq, Repr

/-- The `repr(i8)` discriminant of `Alg`. -/
def Alg.toI8 : Alg → Int
  | .es256 => -7
  | .edDsa => -8
  | .totp => -9
  | .ecdhEsHkdf256 => -25

/-- Model of `enum Crv` of `src/cose.rs`: `None = 0, P256 = 1, X25519 = 4, Ed25519 = 6`. -/
inductive Crv where
  | none
  | p256
  | x25519
  | ed25519
deriving DecidableEq, Repr

/-- The `repr(i8)` discriminant of `Crv`. -/
def Crv.toI8 : Crv → Int
  | .none => 0
  | .p256 => 1
  | .x25519 => 4
  | .ed25519 => 6

/-- Deserialization errors raised while decoding a COSE key, at the serde
visitor layer: the constructions the source performs on `serde::de::Error`
(`custom`, `missing_field`, `invalid_value`) plus the failures of the
external `cbor-smol` item parsers the visitor invokes (`next_key::<i8>`,
`next_value`). -/
inductive DeError where
  /-- Model of `serde::de::Error::custom(msg)`. -/
  | custom (msg : String)
  /-- Model of `serde::de::Error::missing_field(name)`. -/
  | missingField (name : String)
  /-- Model of `serde::de::Error::invalid_value(unexpected, expected)`, with the two
  `i8` discriminants involved. -/
  | invalidValue (unexpected expected : Int)
  /-- Model of `cbor-smol` failure to parse a map key as `i8` (key not an integer or
  outside the `i8` range). -/
  | badI8Key
  /-- Model of `cbor-smol` failure to parse a value as the requested type (wrong CBOR
  type, invalid enum discriminant, or a byte string exceeding the target
  `Bytes<32>` capacity). -/
  | badValue
deriving DecidableEq, Repr

/-- The message of the order check in `RawPublicKey::deserialize`. -/
def wrongOrderMsg : String := "public key data in wrong order or with duplicates"

/-- Model of `Deserialize_repr` for `Kty`: parse an `i8` and match the discriminant. -/
def Kty.parse : CborValue → Except DeError Kty
  | .int 1 => .ok .okp
  | .int 2 => .ok .ec2
  | .int 4 => .ok .symmetric
  | _ => .error .badValue

/-- Model of `Deserialize_repr` for `Alg`: parse an `i8` and match the discriminant. -/
def Alg.parse : CborValue → Except DeError Alg
  | .int (-7) => .ok .es256
  | .int (-8) => .ok .edDsa
  | .int (-9) => .ok .totp
  | .int (-25) => .ok .ecdhEsHkdf256
  | _ => .error .badValue

/-- Model of `Deserialize_repr` for `Crv`: parse an `i8` and match the discriminant. -/
def Crv.parse : CborValue → Except DeError Crv
  | .int 0 => .ok .none
  | .int 1 => .ok .p256
  | .int 4 => .ok .x25519
  | .int 6 => .ok .ed25519
  | _ => .error .badValue

/-- Model of `cbor-smol` deserialization of a `Bytes<32>` value: a byte string of
length at most 32. -/
def parseBytes32 : CborValue → Except DeError (List Nat)
  | .bytes b => if b.length ≤ 32 then .ok b else .error .badValue
  | _ => .error .badValue

/-- Model of `struct RawPublicKey` of `src/cose.rs`: the generic 5-field record. -/
structure RawPublicKey where
  kty : Option Kty := none
  alg : Option Alg := none
  crv : Option Crv := none
  x : Option (List Nat) := none
  y : Option (List Nat) := none
deriving DecidableEq, Repr

/-- Model of `enum Key` of the `IndexedVisitor` in `RawPublicKey::deserialize`. -/
inductive Key where
  | label (l : Label)
  | unknown (k : Int)
  | none
deriving DecidableEq, Repr

/-- The visitor's position in the map: the key just read (`Key::None` at the
end), the CBOR value paired with it (a dummy at the end; it is only read
after the key matched a known label), and the remaining entries. -/
structure Cursor where
  key : Key
  val : CborValue
  rest : List Entry
deriving DecidableEq, Repr

/-- Model of `fn next_key` of the `IndexedVisitor`: read the next map key (parsed by
`cbor-smol` as an `i8`, which fails outside `-128..=127`) and classify it via
`Label::try_from`. -/
def nextKey : List Entry → Except DeError Cursor
  | [] => .ok ⟨.none, .int 0, []⟩
  | (k, v) :: rest =>
    if -128 ≤ k ∧ k ≤ 127 then
      match Label.tryFrom k with
      | some l => .ok ⟨.label l, v, rest⟩
      | Option.none => .ok ⟨.unknown k, v, rest⟩
    else .error .badI8Key

/-- One `if key == Key::Label(want) { field = Some(map.next_value()?); key =
next_key(&mut map)?; }` block of the visitor: on a match, parse the pending
value and advance to the next key; otherwise leave the cursor unchanged. -/
def visitField (want : Label) (parseVal : CborValue → Except DeError α)
    (c : Cursor) : Except DeError (Option α × Cursor) :=
  if c.key = .label want then
    match parseVal c.val with
    | .error e => .error e
    | .ok v =>
      match nextKey c.rest with
      | .error e => .error e
      | .ok c2 => .ok (some v, c2)
  else .ok (none, c)

/-- Model of `impl Deserialize for RawPublicKey` of `src/cose.rs`: consume the five
known fields in the canonical order `kty, alg, crv, x, y`; afterwards, if the
pending key is again a known label the data was out of order or duplicated or
had unknown keys before a known key, and decoding fails; an unknown pending
key (or the end of the map) is accepted, and the remaining entries are never
read. -/
def RawPublicKey.deserialize (l : List Entry) : Except DeError RawPublicKey :=
  match nextKey l with
  | .error e => .error e
  | .ok c =>
    match visitField .kty Kty.parse c with
    | .error e => .error e
    | .ok (ktyF, c) =>
      match visitField .alg Alg.parse c with
      | .error e => .error e
      | .ok (algF, c) =>
        match visitField .crv Crv.parse c with
        | .error e => .error e
        | .ok (crvF, c) =>
          match visitField .x parseBytes32 c with
          | .error e => .error e
          | .ok (xF, c) =>
            match visitField .y parseBytes32 c with
            | .error e => .error e
            | .ok (yF, c) =>
              match c.key with
              | .label _ => .error (.custom wrongOrderMsg)
              | _ => .ok ⟨ktyF, algF, crvF, xF, yF⟩

/-- Model of `impl Serialize for RawPublicKey` of `src/cose.rs`: emit the present
fields as map entries in the fixed order `kty, alg, crv, x, y`. -/
def RawPublicKey.serialize (pk : RawPublicKey) : List Entry :=
  (match pk.kty with
    | some kty => [((Label.kty).toI8, .int kty.toI8)]
    | none => []) ++
  (match pk.alg with
    | some alg => [((Label.alg).toI8, .int alg.toI8)]
    | none => []) ++
  (match pk.crv with
    | some crv => [((Label.crv).toI8, .int crv.toI8)]
    | none => []) ++
  (match pk.x with
    | some x => [((Label.x).toI8, .bytes x)]
    | none => []) ++
  (match pk.y with
    | some y => [((Label.y).toI8, .bytes y)]
    | none => [])

/-- Model of `struct P256PublicKey` of `src/cose.rs` (`KTY = Ec2, ALG = Es256, CRV = P256`). -/
structure P256PublicKey where
  x : List Nat
  y : List Nat
deriving DecidableEq, Repr

/-- Model of `struct EcdhEsHkdf256PublicKey` of `src/cose.rs`
(`KTY = Ec2, ALG = EcdhEsHkdf256, CRV = P256`). -/
structure EcdhEsHkdf256PublicKey where
  x : List Nat
  y : List Nat
deriving DecidableEq, Repr

/-- Model of `struct Ed25519PublicKey` of `src/cose.rs` (`KTY = Okp, ALG = EdDsa, CRV = Ed25519`). -/
structure Ed25519PublicKey where
  x : List Nat
deriving DecidableEq, Repr

/-- Model of `impl From<P256PublicKey> for RawPublicKey`. -/
def P256PublicKey.toRaw (k : P256PublicKey) : RawPublicKey :=
  { kty := some .ec2, alg := some .es256, crv := some .p256
    x := some k.x, y := some k.y }

/-- Model of `impl From<EcdhEsHkdf256PublicKey> for RawPublicKey`. -/
def EcdhEsHkdf256PublicKey.toRaw (k : EcdhEsHkdf256PublicKey) : RawPublicKey :=
  { kty := some .ec2, alg := some .ecdhEsHkdf256, crv := some .p256
    x := some k.x, y := some k.y }

/-- Model of `impl From<Ed25519PublicKey> for RawPublicKey`. -/
def Ed25519PublicKey.toRaw (k : Ed25519PublicKey) : RawPublicKey :=
  { kty := some .okp, alg := some .edDsa, crv := some .ed25519
    x := some k.x, y := none }

/-- Model of `#[serde(into = "RawPublicKey")]` serialization of `P256PublicKey`. -/
def P256PublicKey.serialize (k : P256PublicKey) : List Entry :=
  k.toRaw.serialize

/-- Model of `#[serde(into = "RawPublicKey")]` serialization of `EcdhEsHkdf256PublicKey`. -/
def EcdhEsHkdf256PublicKey.serialize (k : EcdhEsHkdf256PublicKey) : List Entry :=
  k.toRaw.serialize

/-- Model of `#[serde(into = "RawPublicKey")]` serialization of `Ed25519PublicKey`. -/
def Ed25519PublicKey.serialize (k : Ed25519PublicKey) : List Entry :=
  k.toRaw.serialize

/-- Model of `fn check_key_constants::<K, E>` of `src/cose.rs`, with the constants of
the target key type passed explicitly: `kty` and `alg` must be present and
equal to the constants; `crv` must be present and equal unless the constant
is `Crv::None`. -/
def checkKeyConstants (kKty : Kty) (kAlg : Alg) (kCrv : Crv)
    (kty : Option Kty) (alg : Option Alg) (crv : Option Crv) :
    Except DeError Unit :=
  match kty with
  | none => .error (.missingField ("kty"))
  | some kty =>
    match alg with
    | none => .error (.missingField ("alg"))
    | some alg =>
      if kty ≠ kKty then .error (.invalidValue kty.toI8 kKty.toI8)
      else if alg ≠ kAlg then .error (.invalidValue alg.toI8 kAlg.toI8)
      else if kCrv ≠ Crv.none then
        match crv with
        | none => .error (.missingField ("crv"))
        | some crv =>
          if crv ≠ kCrv then .error (.invalidValue crv.toI8 kCrv.toI8)
          else .ok ()
      else .ok ()

/-- Model of `impl Deserialize for P256PublicKey` of `src/cose.rs`. -/
def P256PublicKey.deserialize (l : List Entry) : Except DeError P256PublicKey :=
  match RawPublicKey.deserialize l with
  | .error e => .error e
  | .ok raw =>
    match checkKeyConstants .ec2 .es256 .p256 raw.kty raw.alg raw.crv with
    | .error e => .error e
    | .ok _ =>
      match raw.x with
      | none => .error (.missingField ("x"))
      | some x =>
        match raw.y with
        | none => .error (.missingField ("y"))
        | some y => .ok ⟨x, y⟩

/-- Model of `impl Deserialize for EcdhEsHkdf256PublicKey` of `src/cose.rs`. -/
def EcdhEsHkdf256PublicKey.deserialize (l : List Entry) :
    Except DeError EcdhEsHkdf256PublicKey :=
  match RawPublicKey.deserialize l with
  | .error e => .error e
  | .ok raw =>
    match checkKeyConstants .ec2 .ecdhEsHkdf256 .p256 raw.kty raw.alg raw.crv with
    | .error e => .error e
    | .ok _ =>
      match raw.x with
      | none => .error (.missingField ("x"))
      | some x =>
        match raw.y with
        | none => .error (.missingField ("y"))
        | some y => .ok ⟨x, y⟩

/-- Model of `impl Deserialize for Ed25519PublicKey` of `src/cose.rs`. -/
def Ed25519PublicKey.deserialize (l : List Entry) :
    Except DeError Ed25519PublicKey :=
  match RawPublicKey.deserialize l with
  | .error e => .error e
  | .ok raw =>
    match checkKeyConstants .okp .edDsa .ed25519 raw.kty raw.alg raw.crv with
    | .error e => .error e
    | .ok _ =>
      match raw.x with
      | none => .error (.missingField ("x"))
      | some x => .ok ⟨x⟩

/-! ## CTAP2 operation registry (`src/operation.rs`) -/

/-- Model of `struct VendorOperation(u8)` of `src/operation.rs`. -/
structure VendorOperation where
  code : Nat
deriving DecidableEq, Repr

/-- Model of `VendorOperation::FIRST = 0x40`. -/
def VendorOperation.first : Nat := 0x40

/-- Model of `VendorOperation::LAST = 0x7f`. -/
def VendorOperation.last : Nat := 0x7f

/-- Model of `impl TryFrom<u8> for VendorOperation`: accept exactly `0x40..=0x7f`. -/
def VendorOperation.tryFrom (from_ : Nat) : Except Unit VendorOperation :=
  if VendorOperation.first ≤ from_ ∧ from_ ≤ VendorOperation.last then
    .ok ⟨from_⟩
  else .error ()

/-- Model of `impl From<VendorOperation> for u8`. -/
def VendorOperation.toU8 (operation : VendorOperation) : Nat :=
  operation.code

/-- Model of `enum Operation` of `src/operation.rs`. -/
inductive Operation where
  | makeCredential
  | getAssertion
  | getNextAssertion
  | getInfo
  | clientPin
  | reset
  | bioEnrollment
  | credentialManagement
  | selection
  | largeBlobs
  | config
  | previewBioEnrollment
  | previewCredentialManagement
  | vendor (op : VendorOperation)
deriving DecidableEq, Repr

/-- Model of `impl From<Operation> for u8` of `src/operation.rs`. -/
def Operation.toU8 : Operation → Nat
  | .makeCredential => 0x01
  | .getAssertion => 0x02
  | .getNextAssertion => 0x08
  | .getInfo => 0x04
  | .clientPin => 0x06
  | .reset => 0x07
  | .bioEnrollment => 0x09
  | .credentialManagement => 0x0A
  | .selection => 0x0B
  | .largeBlobs => 0x0C
  | .config => 0x0D
  | .previewBioEnrollment => 0x40
  | .previewCredentialManagement => 0x41
  | .vendor operation => operation.toU8

/-- Model of `impl TryFrom<u8> for Operation` of `src/operation.rs`: the named opcodes
(including the preview aliases `0x40`/`0x41`, matched before the vendor range
arm), then the vendor range `0x40..=0x7f`, then failure. -/
def Operation.tryFrom (from_ : Nat) : Except Unit Operation :=
  if from_ = 0x01 then .ok .makeCredential
  else if from_ = 0x02 then .ok .getAssertion
  else if from_ = 0x08 then .ok .getNextAssertion
  else if from_ = 0x04 then .ok .getInfo
  else if from_ = 0x06 then .ok .clientPin
  else if from_ = 0x07 then .ok .reset
  else if from_ = 0x09 then .ok .bioEnrollment
  else if from_ = 0x0A then .ok .credentialManagement
  else if from_ = 0x0B then .ok .selection
  else if from_ = 0x0C then .ok .largeBlobs
  else if from_ = 0x0D then .ok .config
  else if from_ = 0x40 then .ok .previewBioEnrollment
  else if from_ = 0x41 then .ok .previewCredentialManagement
  else if VendorOperation.first ≤ from_ ∧ from_ ≤ VendorOperation.last then
    match VendorOperation.tryFrom from_ with
    | .ok code => .ok (.vendor code)
    | .error e => .error e
  else .error ()

/-! ## CTAP2 error taxonomy and request decoder (`src/ctap2.rs`) -/

/-- Model of `enum Error` of `src/ctap2.rs`: the CTAP2 status code taxonomy. -/
inductive Ctap2Error where
  | success
  | invalidCommand
  | invalidParameter
  | invalidLength
  | invalidSeq
  | timeout
  | channelBusy
  | lockRequired
  | invalidChannel
  | cborUnexpectedType
  | invalidCbor
  | missingParameter
  | limitExceeded
  | unsupportedExtension
  | fingerprintDatabaseFull
  | largeBlobStorageFull
  | credentialExcluded
  | processing
  | invalidCredential
  | userActionPending
  | operationPending
  | noOperations
  | unsupportedAlgorithm
  | operationDenied
  | keyStoreFull
  | notBusy
  | noOperationPending
  | unsupportedOption
  | invalidOption
  | keepaliveCancel
  | noCredentials
  | userActionTimeout
  | notAllowed
  | pinInvalid
  | pinBlocked
  | pinAuthInvalid
  | pinAuthBlocked
  | pinNotSet
  | pinRequired
  | pinPolicyViolation
  | pinTokenExpired
  | requestTooLarge
  | actionTimeout
  | upRequired
  | uvBlocked
  | integrityFailure
  | invalidSubcommand
  | uvInvalid
  | unauthorizedPermission
  | other
  | specLast
  | extensionFirst
  | extensionLast
  | vendorFirst
  | vendorLast
deriving DecidableEq, Repr

/-- The numeric (wire) value of each CTAP2 status code. -/
def Ctap2Error.toU8 : Ctap2Error → Nat
  | .success => 0x00
  | .invalidCommand => 0x01
  | .invalidParameter => 0x02
  | .invalidLength => 0x03
  | .invalidSeq => 0x04
  | .timeout => 0x05
  | .channelBusy => 0x06
  | .lockRequired => 0x0A
  | .invalidChannel => 0x0B
  | .cborUnexpectedType => 0x11
  | .invalidCbor => 0x12
  | .missingParameter => 0x14
  | .limitExceeded => 0x15
  | .unsupportedExtension => 0x16
  | .fingerprintDatabaseFull => 0x17
  | .largeBlobStorageFull => 0x18
  | .credentialExcluded => 0x19
  | .processing => 0x21
  | .invalidCredential => 0x22
  | .userActionPending => 0x23
  | .operationPending => 0x24
  | .noOperations => 0x25
  | .unsupportedAlgorithm => 0x26
  | .operationDenied => 0x27
  | .keyStoreFull => 0x28
  | .notBusy => 0x29
  | .noOperationPending => 0x2A
  | .unsupportedOption => 0x2B
  | .invalidOption => 0x2C
  | .keepaliveCancel => 0x2D
  | .noCredentials => 0x2E
  | .userActionTimeout => 0x2F
  | .notAllowed => 0x30
  | .pinInvalid => 0x31
  | .pinBlocked => 0x32
  | .pinAuthInvalid => 0x33
  | .pinAuthBlocked => 0x34
  | .pinNotSet => 0x35
  | .pinRequired => 0x36
  | .pinPolicyViolation => 0x37
  | .pinTokenExpired => 0x38
  | .requestTooLarge => 0x39
  | .actionTimeout => 0x3A
  | .upRequired => 0x3B
  | .uvBlocked => 0x3C
  | .integrityFailure => 0x3D
  | .invalidSubcommand => 0x3E
  | .uvInvalid => 0x3F
  | .unauthorizedPermission => 0x40
  | .other => 0x7F
  | .specLast => 0xDF
  | .extensionFirst => 0xE0
  | .extensionLast => 0xEF
  | .vendorFirst => 0xF0
  | .vendorLast => 0xFF

/-- Model of `cbor_smol::Error` (external crate), as far as this crate observes it:
`SerdeMissingField` is matched by name in `src/ctap2.rs`,
`DeserializeUnexpectedEnd` is constructed there, and all remaining variants
of the library's error enum fall under the wildcard arm of the `From`
mapping; the representative remaining variants are listed here. -/
inductive CborSmolError where
  | serdeMissingField
  | deserializeUnexpectedEnd
  | serdeCustom
  | serdeInvalidValue
  | deserializeBadI8
  | deserializeBadUtf8
  | serializeBufferFull
deriving DecidableEq, Repr

/-- Model of `enum CtapMappingError` of `src/ctap2.rs`. -/
inductive CtapMappingError where
  | invalidCommand (cmd : Nat)
  | parsingError (cborError : CborSmolError)
deriving DecidableEq, Repr

/-- Model of `impl From<CtapMappingError> for Error` of `src/ctap2.rs`: an invalid
command maps to `InvalidCommand`; a parsing error maps to `MissingParameter`
when it is `SerdeMissingField` and to `InvalidCbor` otherwise. -/
def CtapMappingError.toError : CtapMappingError → Ctap2Error
  | .invalidCommand _ => .invalidCommand
  | .parsingError cborError =>
    match cborError with
    | .serdeMissingField => .missingParameter
    | _ => .invalidCbor

/-- Model of `enum Request` of `src/ctap2.rs` (CTAP2 requests).  The body of each
body-carrying variant is decoded by the external `cbor-smol` crate from the
per-operation sub-schema; those bodies are type parameters here. -/
inductive Ctap2Request (mc ga cp cm lb : Type) where
  | makeCredential (r : mc)
  | getAssertion (r : ga)
  | getNextAssertion
  | getInfo
  | clientPin (r : cp)
  | reset
  | credentialManagement (r : cm)
  | largeBlobs (r : lb)
  | vendor (op : VendorOperation)
deriving DecidableEq, Repr

/-- Model of `Request::deserialize` of `src/ctap2.rs`, with the external `cbor-smol`
sub-schema decoders (`cbor_deserialize::<make_credential::Request>` and so
on) passed as the parameters `dmc`, `dga`, `dcp`, `dcm`.  Empty input fails
with the unexpected-end parsing error; the first byte is the opcode, decoded
via `Operation::try_from` (failure maps to `InvalidCommand`); body-less
handled operations succeed ignoring the remaining bytes; `BioEnrollment`,
`PreviewBioEnrollment`, `Config`, `LargeBlobs` and `Selection` are rejected
with `InvalidCommand`. -/
def Ctap2Request.deserialize (dmc : List Nat → Except CborSmolError mc)
    (dga : List Nat → Except CborSmolError ga)
    (dcp : List Nat → Except CborSmolError cp)
    (dcm : List Nat → Except CborSmolError cm)
    (data : List Nat) : Except Ctap2Error (Ctap2Request mc ga cp cm lb) :=
  match data with
  | [] => .error ((CtapMappingError.parsingError .deserializeUnexpectedEnd).toError)
  | op :: data =>
    match Operation.tryFrom op with
    | .error _ => .error ((CtapMappingError.invalidCommand op).toError)
    | .ok operation =>
      match operation with
      | .makeCredential =>
        match dmc data with
        | .ok r => .ok (.makeCredential r)
        | .error e => .error ((CtapMappingError.parsingError e).toError)
      | .getAssertion =>
        match dga data with
        | .ok r => .ok (.getAssertion r)
        | .error e => .error ((CtapMappingError.parsingError e).toError)
      | .getNextAssertion => .ok .getNextAssertion
      | .credentialManagement | .previewCredentialManagement =>
        match dcm data with
        | .ok r => .ok (.credentialManagement r)
        | .error e => .error ((CtapMappingError.parsingError e).toError)
      | .reset => .ok .reset
      | .getInfo => .ok .getInfo
      | .clientPin =>
        match dcp data with
        | .ok r => .ok (.clientPin r)
        | .error e => .error ((CtapMappingError.parsingError e).toError)
      | .vendor vendorOperation => .ok (.vendor vendorOperation)
      | .bioEnrollment | .previewBioEnrollment | .config | .largeBlobs
      | .selection =>
        .error ((CtapMappingError.invalidCommand op).toError)

/-- A trivial sub-schema decoder used to instantiate
`Ctap2Request.deserialize` at concrete inputs. -/
def trivialBodyDecoder : List Nat → Except CborSmolError Unit :=
  fun _ => .ok ()

/-! ## CTAP2 response encoder (`src/ctap2.rs`) -/

/-- Model of `enum Response` of `src/ctap2.rs` (CTAP2 responses), with the
per-operation body types as type parameters (their CBOR serialization is
performed by the external `cbor-smol` crate). -/
inductive Ctap2Response (gi mc cp ga cm lb : Type) where
  | makeCredential (r : mc)
  | getAssertion (r : ga)
  | getNextAssertion (r : ga)
  | getInfo (r : gi)
  | clientPin (r : cp)
  | reset
  | credentialManagement (r : cm)
  | largeBlobs (r : lb)
  | vendor
deriving DecidableEq, Repr

/-- The external `cbor_serialize` calls of `Response::serialize`, bundled
per body type: `ser r cap` returns the serialized CBOR bytes when the value
fits into a buffer of `cap` bytes (the returned slice has length at most
`cap`), and `none` when serialization fails. -/
structure ResponseSerializers (gi mc cp ga cm lb : Type) where
  serGetInfo : gi → Nat → Option (List Nat)
  serMakeCredential : mc → Nat → Option (List Nat)
  serClientPin : cp → Nat → Option (List Nat)
  serGetAssertion : ga → Nat → Option (List Nat)
  serCredentialManagement : cm → Nat → Option (List Nat)
  serLargeBlobs : lb → Nat → Option (List Nat)

/-- The `match self` of `Response::serialize`: the CBOR serialization outcome
of the body into the `cap`-byte region after the status byte.  `Reset` and
`Vendor` do not call the serializer and yield the empty slice. -/
def Ctap2Response.bodyOutcome (s : ResponseSerializers gi mc cp ga cm lb)
    (cap : Nat) : Ctap2Response gi mc cp ga cm lb → Option (List Nat)
  | .getInfo r => s.serGetInfo r cap
  | .makeCredential r => s.serMakeCredential r cap
  | .clientPin r => s.serClientPin r cap
  | .getAssertion r => s.serGetAssertion r cap
  | .getNextAssertion r => s.serGetAssertion r cap
  | .credentialManagement r => s.serCredentialManagement r cap
  | .largeBlobs r => s.serLargeBlobs r cap
  | .reset => some []
  | .vendor => some []

/-- Model of `Response::serialize` of `src/ctap2.rs` into a buffer of capacity `n`:
the buffer is resized to its capacity and split into a status byte and a
body region (`split_first_mut().unwrap()` panics — `none` — when the
capacity is 0); on a successful body serialization the status byte is 0 and
the buffer is truncated after the body; on failure the status byte is
`Error::Other as u8` and the buffer is truncated to that single byte. -/
def Ctap2Response.serialize (s : ResponseSerializers gi mc cp ga cm lb)
    (n : Nat) (resp : Ctap2Response gi mc cp ga cm lb) : Option (List Nat) :=
  if n = 0 then none
  else
    match resp.bodyOutcome s (n - 1) with
    | some slice => some (0 :: slice)
    | none => some [Ctap2Error.other.toU8]

/-! ## Concrete CBOR byte encoders for the response bodies the claims use -/

/-- CBOR encoding of an unsigned integer (major type 0), as produced by
`cbor-smol`. -/
def cborUint (v : Nat) : List Nat :=
  if v < 24 then [v]
  else if v < 0x100 then [0x18, v]
  else if v < 0x10000 then [0x19, v / 0x100 % 0x100, v % 0x100]
  else [0x1a, v / 0x1000000 % 0x100, v / 0x10000 % 0x100, v / 0x100 % 0x100,
        v % 0x100]

/-- CBOR encoding of a byte string (major type 2), as produced by
`cbor-smol`. -/
def cborBstr (b : List Nat) : List Nat :=
  (if b.length < 24 then [0x40 + b.length]
   else if b.length < 0x100 then [0x58, b.length]
   else [0x59, b.length / 0x100 % 0x100, b.length % 0x100]) ++ b

/-- CBOR encoding of an ASCII text string (major type 3) of fewer than 24
bytes, as produced by `cbor-smol`. -/
def cborTextShort (s : String) : List Nat :=
  (0x60 + s.length) :: (s.data.map Char.toNat)

/-- CBOR encoding of a boolean, as produced by `cbor-smol`. -/
def cborBool (b : Bool) : List Nat :=
  if b then [0xf5] else [0xf4]

/-- Model of `struct Response` of `src/ctap2/large_blobs.rs`: one optional field
`config` at index 1 (with `skip_serializing_if = "Option::is_none"`). -/
structure LargeBlobsResponse where
  config : Option (List Nat)
deriving DecidableEq, Repr

/-- The CBOR bytes of a `large_blobs::Response` as produced by the
`SerializeIndexed` derive (`serde_indexed(offset = 1)`) composed with
`cbor-smol`: a map holding the entry `1 => config` exactly when `config` is
present. -/
def LargeBlobsResponse.encode (r : LargeBlobsResponse) : List Nat :=
  match r.config with
  | none => [0xa0]
  | some b => [0xa1, 0x01] ++ cborBstr b

/-- Model of `cbor_serialize` of a `large_blobs::Response` into a `cap`-byte buffer:
the encoded bytes when they fit, failure otherwise. -/
def LargeBlobsResponse.cborSerialize (r : LargeBlobsResponse) (cap : Nat) :
    Option (List Nat) :=
  if r.encode.length ≤ cap then some r.encode else none

/-- A `cbor_serialize` instantiation that always fails; used for response
variants whose body serialization a concrete statement does not exercise. -/
def failingBodySerializer : Unit → Nat → Option (List Nat) :=
  fun _ _ => none

/-- A concrete `ResponseSerializers` instantiation: the real (modelled)
serializer for the large-blobs body, trivial ones elsewhere. -/
def exampleSerializers :
    ResponseSerializers Unit Unit Unit Unit Unit LargeBlobsResponse :=
  ⟨failingBodySerializer, failingBodySerializer, failingBodySerializer,
   failingBodySerializer, failingBodySerializer,
   LargeBlobsResponse.cborSerialize⟩

/-! ## Authenticator data encoder (`src/ctap2.rs`, `src/ctap2/make_credential.rs`) -/

/-- Model of `u16::to_be_bytes`. -/
def be16 (v : Nat) : List Nat :=
  [v / 0x100 % 0x100, v % 0x100]

/-- Model of `u32::to_be_bytes`. -/
def be32 (v : Nat) : List Nat :=
  [v / 0x1000000 % 0x100, v / 0x10000 % 0x100, v / 0x100 % 0x100, v % 0x100]

/-- Model of `heapless::Vec::<u8, cap>::extend_from_slice` followed by `.unwrap()`:
append when the result fits the capacity, panic (`none`) otherwise. -/
def extendUnwrap (cap : Nat) (buf s : List Nat) : Option (List Nat) :=
  if buf.length + s.length ≤ cap then some (buf ++ s) else none

/-- Model of `heapless::Vec::<u8, cap>::push` followed by `.unwrap()`. -/
def pushUnwrap (cap : Nat) (buf : List Nat) (v : Nat) : Option (List Nat) :=
  if buf.length + 1 ≤ cap then some (buf ++ [v]) else none

/-- Model of `ATTESTED_CREDENTIAL_DATA_LENGTH` of `src/sizes.rs`. -/
def attestedCredentialDataLength : Nat := 612

/-- Model of `AUTHENTICATOR_DATA_LENGTH` of `src/sizes.rs`. -/
def authenticatorDataLength : Nat := 676

/-- Model of `struct AttestedCredentialData` of `src/ctap2/make_credential.rs`: the
aaguid (`Bytes<16>`), the credential id (`Bytes<MAX_CREDENTIAL_ID_LENGTH>`,
capacity 255) and the already-serialized COSE credential public key
(`Bytes<COSE_KEY_LENGTH>`, capacity 256). -/
structure AttestedCredentialData where
  aaguid : List Nat
  credentialId : List Nat
  credentialPublicKey : List Nat
deriving DecidableEq, Repr

/-- Model of `impl SerializeAttestedCredentialData for AttestedCredentialData` of
`src/ctap2/make_credential.rs`: into a `Vec<u8, 612>`, append the aaguid,
the credential-id length as a big-endian `u16` (the `as u16` cast reduces
modulo `2 ^ 16`), the credential id, and the raw COSE key bytes (embedded,
not re-encoded); every append is `.unwrap()`ed. -/
def AttestedCredentialData.serialize (acd : AttestedCredentialData) :
    Option (List Nat) :=
  (extendUnwrap attestedCredentialDataLength [] acd.aaguid).bind fun bytes =>
  (extendUnwrap attestedCredentialDataLength bytes
      (be16 (acd.credentialId.length % 0x10000))).bind fun bytes =>
  (extendUnwrap attestedCredentialDataLength bytes acd.credentialId).bind
    fun bytes =>
  extendUnwrap attestedCredentialDataLength bytes acd.credentialPublicKey

/-- Model of `struct AuthenticatorData<A, E>` of `src/ctap2.rs`: the flags byte is
the `bits()` value of the `AuthenticatorDataFlags` bitmask. -/
structure AuthenticatorData (α ε : Type) where
  rpIdHash : List Nat
  flags : Nat
  signCount : Nat
  attestedCredentialData : Option α
  extensions : Option ε
deriving DecidableEq, Repr

/-- Model of `AuthenticatorData::serialize` of `src/ctap2.rs` into a
`Bytes<AUTHENTICATOR_DATA_LENGTH>` (capacity 676): append the rp-id hash,
the flags byte, the sign count as big-endian `u32` (`% 2 ^ 32` models the
`u32` field), then, if present, the attested-credential-data serialization
(`serA`, the `SerializeAttestedCredentialData` impl of `α`, whose own panic
is `none`), then, if present, the CBOR serialization of the extensions
(`encE e` is the `cbor-smol` encoding of `e`, written into a 128-byte
scratch buffer — exceeding it is the `cbor_serialize(..).unwrap()` panic);
every append into the output is `.unwrap()`ed. -/
def AuthenticatorData.serialize (serA : α → Option (List Nat))
    (encE : ε → List Nat) (ad : AuthenticatorData α ε) : Option (List Nat) :=
  (extendUnwrap authenticatorDataLength [] ad.rpIdHash).bind fun bytes =>
  (pushUnwrap authenticatorDataLength bytes ad.flags).bind fun bytes =>
  (extendUnwrap authenticatorDataLength bytes
      (be32 (ad.signCount % 0x100000000))).bind fun bytes =>
  (match ad.attestedCredentialData with
    | some acd =>
      (serA acd).bind fun s => extendUnwrap authenticatorDataLength bytes s
    | none => some bytes).bind fun bytes =>
  match ad.extensions with
  | some e =>
    if (encE e).length ≤ 128 then
      extendUnwrap authenticatorDataLength bytes (encE e)
    else none
  | none => some bytes

/-- Model of `struct Extensions` of `src/ctap2/make_credential.rs`: the
make-credential extensions record with its serde renames
(`credProtect`, `hmac-secret`, `largeBlobKey`), every field optional and
skipped when absent.  `cred_protect` is a `u8`. -/
structure McExtensions where
  credProtect : Option Nat
  hmacSecret : Option Bool
  largeBlobKey : Option Bool
deriving DecidableEq, Repr

/-- The `cbor-smol` encoding of `make_credential::Extensions`: a text-keyed
CBOR map holding, in declaration order, the present fields under their
serde-renamed keys. -/
def McExtensions.encode (e : McExtensions) : List Nat :=
  let count := (if e.credProtect.isSome then 1 else 0) +
    ((if e.hmacSecret.isSome then 1 else 0) +
      (if e.largeBlobKey.isSome then 1 else 0))
  (0xa0 + count) ::
    ((match e.credProtect with
      | some v => cborTextShort ("credProtect") ++ cborUint v
      | none => []) ++
     ((match e.hmacSecret with
      | some b => cborTextShort ("hmac-secret") ++ cborBool b
      | none => []) ++
      (match e.largeBlobKey with
      | some b => cborTextShort ("largeBlobKey") ++ cborBool b
      | none => [])))

/-! ## CTAP1 (U2F) codec (`src/ctap1.rs`) -/

/-- The `iso7816::Status` values used by `src/ctap1.rs`. -/
inductive Iso7816Status where
  | classNotSupported
  | incorrectDataParameter
  | instructionNotSupportedOrInvalid
deriving DecidableEq, Repr

/-- Model of `enum ControlByte` of `src/ctap1.rs`. -/
inductive ControlByte where
  | checkOnly
  | enforceUserPresenceAndSign
  | dontEnforceUserPresenceAndSign
deriving DecidableEq, Repr

/-- Model of `impl TryFrom<u8> for ControlByte`: `0x07`, `0x03`, `0x08`; anything else
is `IncorrectDataParameter`. -/
def ControlByte.tryFrom (byte : Nat) : Except Iso7816Status ControlByte :=
  if byte = 0x07 then .ok .checkOnly
  else if byte = 0x03 then .ok .enforceUserPresenceAndSign
  else if byte = 0x08 then .ok .dontEnforceUserPresenceAndSign
  else .error .incorrectDataParameter

/-- An ISO7816 APDU command as observed by `Request::try_from` in
`src/ctap1.rs`: the class byte, the effective instruction byte (the source
maps `iso7816::Instruction::Unknown(ins)` to `ins` and any named ISO7816
instruction to 0; the CTAP1 opcodes 0x01/0x02/0x03 are `Unknown` in the
`iso7816` crate, and every named instruction is rejected below exactly as
the byte 0 is), `p1`, `p2`, and the command data. -/
structure Apdu where
  cla : Nat
  ins : Nat
  p1 : Nat
  p2 : Nat
  data : List Nat
deriving DecidableEq, Repr

/-- Model of `enum Request` of `src/ctap1.rs` (CTAP1 requests). -/
inductive Ctap1Request where
  | register (challenge appId : List Nat)
  | authenticate (controlByte : ControlByte) (challenge appId keyHandle : List Nat)
  | version
deriving DecidableEq, Repr

/-- Model of `impl TryFrom<&iso7816::Command> for Request` of `src/ctap1.rs`: class
must be 0; instruction 0x03 is always accepted as `Version`; Register (0x01)
requires exactly 64 data bytes (32-byte challenge, 32-byte app id);
Authenticate (0x02) requires a valid control byte in `p1`, at least 65 data
bytes, and the declared key-handle length at offset 64 must make the total
length exactly `65 + key_handle_length`; any other instruction is
rejected. -/
def Ctap1Request.tryFrom (apdu : Apdu) : Except Iso7816Status Ctap1Request :=
  if apdu.cla ≠ 0 then .error .classNotSupported
  else if apdu.ins = 0x3 then .ok .version
  else if apdu.ins = 0x1 then
    if apdu.data.length ≠ 64 then .error .incorrectDataParameter
    else .ok (.register (apdu.data.take 32) (apdu.data.drop 32))
  else if apdu.ins = 0x2 then
    match ControlByte.tryFrom apdu.p1 with
    | .error e => .error e
    | .ok controlByte =>
      if apdu.data.length < 65 then .error .incorrectDataParameter
      else
        let keyHandleLength := apdu.data.getD 64 0
        if apdu.data.length ≠ 65 + keyHandleLength then
          .error .incorrectDataParameter
        else
          .ok (.authenticate controlByte (apdu.data.take 32)
            ((apdu.data.drop 32).take 32) (apdu.data.drop 65))
  else .error .instructionNotSupportedOrInvalid

/-- Model of `register::Response` of `src/ctap1.rs`. -/
structure RegisterResponse where
  headerByte : Nat
  publicKey : List Nat
  keyHandle : List Nat
  attestationCertificate : List Nat
  signature : List Nat
deriving DecidableEq, Repr

/-- Model of `authenticate::Response` of `src/ctap1.rs`. -/
structure AuthenticateResponse where
  userPresence : Nat
  count : Nat
  signature : List Nat
deriving DecidableEq, Repr

/-- Model of `enum Response` of `src/ctap1.rs` (CTAP1 responses). -/
inductive Ctap1Response where
  | register (reg : RegisterResponse)
  | authenticate (auth : AuthenticateResponse)
  | version (v : List Nat)
deriving DecidableEq, Repr

/-- Model of `heapless` `push`, with the capacity error propagated (`map_err(drop)?`). -/
def pushErr (cap : Nat) (buf : List Nat) (v : Nat) :
    Except Unit (List Nat) :=
  if buf.length + 1 ≤ cap then .ok (buf ++ [v]) else .error ()

/-- Model of `heapless` `extend_from_slice`, with the capacity error propagated. -/
def extendErr (cap : Nat) (buf s : List Nat) : Except Unit (List Nat) :=
  if buf.length + s.length ≤ cap then .ok (buf ++ s) else .error ()

/-- Model of `Response::serialize` of `src/ctap1.rs` into an `iso7816::Data<S>`
buffer (appending to `buf`): Register is header byte, public key, key-handle
length byte (`as u8` cast), key handle, attestation certificate, signature;
Authenticate is user-presence byte, big-endian `u32` counter, signature;
Version is the version bytes verbatim. -/
def Ctap1Response.serialize (s : Nat) (buf : List Nat) :
    Ctap1Response → Except Unit (List Nat)
  | .register reg =>
    match pushErr s buf reg.headerByte with
    | .error e => .error e
    | .ok buf =>
      match extendErr s buf reg.publicKey with
      | .error e => .error e
      | .ok buf =>
        match pushErr s buf (reg.keyHandle.length % 0x100) with
        | .error e => .error e
        | .ok buf =>
          match extendErr s buf reg.keyHandle with
          | .error e => .error e
          | .ok buf =>
            match extendErr s buf reg.attestationCertificate with
            | .error e => .error e
            | .ok buf => extendErr s buf reg.signature
  | .authenticate auth =>
    match pushErr s buf auth.userPresence with
    | .error e => .error e
    | .ok buf =>
      match extendErr s buf (be32 (auth.count % 0x100000000)) with
      | .error e => .error e
      | .ok buf => extendErr s buf auth.signature
  | .version v => extendErr s buf v

/-- Model of `Authenticator::version()` of `src/ctap1.rs`: the fixed bytes
`*b"U2F_V2"`. -/
def u2fV2 : List Nat := [0x55, 0x32, 0x46, 0x5f, 0x56, 0x32]

/-! ## Auxiliary concrete instances used by the claim statements -/

/-- A sub-schema decoder that always reports the missing-required-field CBOR
condition. -/
def missingFieldDecoder : List Nat → Except CborSmolError Unit :=
  fun _ => .error .serdeMissingField

/-- A sub-schema decoder that always reports a custom CBOR error. -/
def customErrorDecoder : List Nat → Except CborSmolError Unit :=
  fun _ => .error .serdeCustom

/-- An authenticator-data value whose encoded length (32 + 1 + 4 + 529 +
128 = 694) exceeds the fixed output capacity
`AUTHENTICATOR_DATA_LENGTH = 676`: a maximal attested-credential-data
segment together with a 128-byte extensions encoding. -/
def overflowAuthData : AuthenticatorData AttestedCredentialData Unit :=
  ⟨List.replicate 32 0, 0, 0,
   some ⟨List.replicate 16 0, List.replicate 255 0, List.replicate 256 0⟩,
   some ()⟩

/-- An extensions encoding of exactly 128 bytes (it fits the 128-byte
scratch buffer, so the overflow happens at the output buffer). -/
def bigExtensionsEnc : Unit → List Nat := fun _ => List.replicate 128 0

/-- The canonical entry carried by each known COSE label in a P-256 key map
(`kty = 2 (EC2)`, `alg = -7 (ES256)`, `crv = 1 (P256)`, coordinates `x`,
`y`); unknown keys get a placeholder value (never read by the decoder). -/
def p256Entry (x y : List Nat) (k : Int) : Entry :=
  (k, if k = 1 then .int 2
      else if k = 3 then .int (-7)
      else if k = -1 then .int 1
      else if k = -2 then .bytes x
      else if k = -3 then .bytes y
      else .int 0)

/-- The five known COSE key labels in canonical order. -/
def canonicalKeys : List Int := [1, 3, -1, -2, -3]

/-- The full 5-field COSE map of a P-256 key, in canonical order. -/
def canonicalP256Entries (x y : List Nat) : List Entry :=
  canonicalKeys.map (p256Entry x y)

/-- The `RawPublicKey` denoted by the full 5-field P-256 map. -/
def rawP256 (x y : List Nat) : RawPublicKey :=
  ⟨some .ec2, some .es256, some .p256, some x, some y⟩

/-! ## Claim C3: operation registry boundary -/

/-- C3 (as stated): `Operation::try_from` maps 0x40 to the `Vendor` variant.
It does not: 0x40 is the named preview alias `PreviewBioEnrollment`, matched
before the vendor-range arm. -/
theorem operation_0x40_not_vendor_counterexample :
    Operation.tryFrom 0x40 = .ok .previewBioEnrollment ∧
    Operation.tryFrom 0x40 ≠ .ok (.vendor ⟨0x40⟩) := by
  decide

/-- C3 (amended): `Operation::try_from` rejects 0x3F and 0x80 as unknown;
0x40 and 0x41 decode to the named preview aliases (`PreviewBioEnrollment`,
`PreviewCredentialManagement`), not to `Vendor`; 0x7F and every byte in
`0x42..=0x7F` decode to `Vendor(code)`; and the byte-to-`Operation` mapping
is injective, with `From<Operation> for u8` as its inverse on every decode
result. -/
theorem operation_registry_boundary :
    Operation.tryFrom 0x3F = .error ()
    ∧ Operation.tryFrom 0x40 = .ok .previewBioEnrollment
    ∧ Operation.tryFrom 0x41 = .ok .previewCredentialManagement
    ∧ Operation.tryFrom 0x7F = .ok (.vendor ⟨0x7F⟩)
    ∧ Operation.tryFrom 0x80 = .error ()
    ∧ (∀ b : Nat, 0x42 ≤ b → b ≤ 0x7F →
        Operation.tryFrom b = .ok (.vendor ⟨b⟩))
    ∧ (∀ (b : Nat) (op : Operation), Operation.tryFrom b = .ok op →
        op.toU8 = b) := by
  refine ⟨by decide, by decide, by decide, by decide, by decide, ?_, ?_⟩
  · intro b h1 h2
    have key : ∀ c, c < 0x80 → 0x42 ≤ c →
        Operation.tryFrom c = .ok (.vendor ⟨c⟩) := by
      decide
    exact key b (by omega) h1
  · intro b op h
    unfold Operation.tryFrom at h
    rcases eq_or_ne b 0x01 with rfl | h1
    · rw [if_pos rfl] at h; injection h with hop; subst hop; rfl
    rw [if_neg h1] at h
    rcases eq_or_ne b 0x02 with rfl | h2
    · rw [if_pos rfl] at h; injection h with hop; subst hop; rfl
    rw [if_neg h2] at h
    rcases eq_or_ne b 0x08 with rfl | h3
    · rw [if_pos rfl] at h; injection h with hop; subst hop; rfl
    rw [if_neg h3] at h
    rcases eq_or_ne b 0x04 with rfl | h4
    · rw [if_pos rfl] at h; injection h with hop; subst hop; rfl
    rw [if_neg h4] at h
    rcases eq_or_ne b 0x06 with rfl | h5
    · rw [if_pos rfl] at h; injection h with hop; subst hop; rfl
    rw [if_neg h5] at h
    rcases eq_or_ne b 0x07 with rfl | h6
    · rw [if_pos rfl] at h; injection h with hop; subst hop; rfl
    rw [if_neg h6] at h
    rcases eq_or_ne b 0x09 with rfl | h7
    · rw [if_pos rfl] at h; injection h with hop; subst hop; rfl
    rw [if_neg h7] at h
    rcases eq_or_ne b 0x0A with rfl | h8
    · rw [if_pos rfl] at h; injection h with hop; subst hop; rfl
    rw [if_neg h8] at h
    rcases eq_or_ne b 0x0B with rfl | h9
    · rw [if_pos rfl] at h; injection h with hop; subst hop; rfl
    rw [if_neg h9] at h
    rcases eq_or_ne b 0x0C with rfl | h10
    · rw [if_pos rfl] at h; injection h with hop; subst hop; rfl
    rw [if_neg h10] at h
    rcases eq_or_ne b 0x0D with rfl | h11
    · rw [if_pos rfl] at h; injection h with hop; subst hop; rfl
    rw [if_neg h11] at h
    rcases eq_or_ne b 0x40 with rfl | h12
    · rw [if_pos rfl] at h; injection h with hop; subst hop; rfl
    rw [if_neg h12] at h
    rcases eq_or_ne b 0x41 with rfl | h13
    · rw [if_pos rfl] at h; injection h with hop; subst hop; rfl
    rw [if_neg h13] at h
    by_cases hv : VendorOperation.first ≤ b ∧ b ≤ VendorOperation.last
    · rw [if_pos hv] at h
      unfold VendorOperation.tryFrom at h
      rw [if_pos hv] at h
      injection h with hop
      subst hop
      rfl
    · rw [if_neg hv] at h
      exact Except.noConfusion h

/-- Witness for C3's amended theorem at concrete inputs: byte 0x50 lies in
the vendor range and decodes to `Vendor(0x50)`, whose encoding is 0x50
again. -/
theorem operation_registry_boundary_witness :
    ((0x42 : Nat) ≤ 0x50 ∧ (0x50 : Nat) ≤ 0x7F) ∧
    Operation.tryFrom 0x50 = .ok (.vendor ⟨0x50⟩) ∧
    Operation.toU8 (.vendor ⟨0x50⟩) = 0x50 :=
  ⟨⟨by decide, by decide⟩,
   operation_registry_boundary.2.2.2.2.2.1 0x50 (by decide) (by decide),
   operation_registry_boundary.2.2.2.2.2.2 0x50 (.vendor ⟨0x50⟩)
     (operation_registry_boundary.2.2.2.2.2.1 0x50 (by decide) (by decide))⟩

/-! ## Claims C2 and C4: CTAP2 request decoding -/

/-- C2 (as stated): an input whose first byte is the Selection opcode (0x0B)
should succeed with a body-less request.  It does not: `Request::deserialize`
rejects Selection with `InvalidCommand` (there is no Selection variant in the
`Request` enum at all). -/
theorem ctap2_selection_rejected_counterexample :
    (@Ctap2Request.deserialize Unit Unit Unit Unit Unit trivialBodyDecoder
      trivialBodyDecoder trivialBodyDecoder trivialBodyDecoder [0x0B]) =
    .error .invalidCommand := by
  decide

/-- C2 (amended): for any sub-schema decoders and any remaining bytes, a
first byte of 0x04 (GetInfo), 0x07 (Reset) or 0x08 (GetNextAssertion) makes
`Request::deserialize` ignore the remaining bytes and succeed with the
corresponding body-less variant, while BioEnrollment (0x09), Selection
(0x0B) and Config (0x0D) fail with `InvalidCommand`. -/
theorem ctap2_bodyless_dispatch (mc ga cp cm lb : Type)
    (dmc : List Nat → Except CborSmolError mc)
    (dga : List Nat → Except CborSmolError ga)
    (dcp : List Nat → Except CborSmolError cp)
    (dcm : List Nat → Except CborSmolError cm)
    (rest : List Nat) :
    (@Ctap2Request.deserialize mc ga cp cm lb dmc dga dcp dcm
        (0x04 :: rest) = .ok .getInfo)
    ∧ (@Ctap2Request.deserialize mc ga cp cm lb dmc dga dcp dcm
        (0x07 :: rest) = .ok .reset)
    ∧ (@Ctap2Request.deserialize mc ga cp cm lb dmc dga dcp dcm
        (0x08 :: rest) = .ok .getNextAssertion)
    ∧ (@Ctap2Request.deserialize mc ga cp cm lb dmc dga dcp dcm
        (0x09 :: rest) = .error .invalidCommand)
    ∧ (@Ctap2Request.deserialize mc ga cp cm lb dmc dga dcp dcm
        (0x0B :: rest) = .error .invalidCommand)
    ∧ (@Ctap2Request.deserialize mc ga cp cm lb dmc dga dcp dcm
        (0x0D :: rest) = .error .invalidCommand) :=
  ⟨rfl, rfl, rfl, rfl, rfl, rfl⟩

/-- C4: `Request::deserialize` error mapping: empty input is the
unexpected-end CBOR condition surfaced as `InvalidCbor`; an unrecognized
opcode is `InvalidCommand`; a sub-schema decode failure becomes
`MissingParameter` exactly when the CBOR error is the missing-required-field
condition and `InvalidCbor` otherwise (shown for each body-carrying opcode:
MakeCredential 0x01, GetAssertion 0x02, ClientPin 0x06,
CredentialManagement 0x0A and its preview alias 0x41).  The decoder itself
is a total function. -/
theorem ctap2_error_mapping (mc ga cp cm lb : Type)
    (dmc : List Nat → Except CborSmolError mc)
    (dga : List Nat → Except CborSmolError ga)
    (dcp : List Nat → Except CborSmolError cp)
    (dcm : List Nat → Except CborSmolError cm) :
    (@Ctap2Request.deserialize mc ga cp cm lb dmc dga dcp dcm [] =
      .error .invalidCbor)
    ∧ (∀ (op : Nat) (rest : List Nat), Operation.tryFrom op = .error () →
        @Ctap2Request.deserialize mc ga cp cm lb dmc dga dcp dcm
          (op :: rest) = .error .invalidCommand)
    ∧ (∀ (rest : List Nat) (e : CborSmolError), dmc rest = .error e →
        @Ctap2Request.deserialize mc ga cp cm lb dmc dga dcp dcm
          (0x01 :: rest) =
          .error (if e = .serdeMissingField then .missingParameter
            else .invalidCbor))
    ∧ (∀ (rest : List Nat) (e : CborSmolError), dga rest = .error e →
        @Ctap2Request.deserialize mc ga cp cm lb dmc dga dcp dcm
          (0x02 :: rest) =
          .error (if e = .serdeMissingField then .missingParameter
            else .invalidCbor))
    ∧ (∀ (rest : List Nat) (e : CborSmolError), dcp rest = .error e →
        @Ctap2Request.deserialize mc ga cp cm lb dmc dga dcp dcm
          (0x06 :: rest) =
          .error (if e = .serdeMissingField then .missingParameter
            else .invalidCbor))
    ∧ (∀ (rest : List Nat) (e : CborSmolError), dcm rest = .error e →
        (@Ctap2Request.deserialize mc ga cp cm lb dmc dga dcp dcm
            (0x0A :: rest) =
          .error (if e = .serdeMissingField then .missingParameter
            else .invalidCbor))
        ∧ (@Ctap2Request.deserialize mc ga cp cm lb dmc dga dcp dcm
            (0x41 :: rest) =
          .error (if e = .serdeMissingField then .missingParameter
            else .invalidCbor))) := by
  refine ⟨rfl, ?_, ?_, ?_, ?_, ?_⟩
  · intro op rest h
    simp only [Ctap2Request.deserialize, h]
    rfl
  · intro rest e h
    simp only [Ctap2Request.deserialize, Operation.tryFrom]
    norm_num only
    rw [h]
    cases e <;> rfl
  · intro rest e h
    simp only [Ctap2Request.deserialize, Operation.tryFrom]
    norm_num only
    rw [h]
    cases e <;> rfl
  · intro rest e h
    simp only [Ctap2Request.deserialize, Operation.tryFrom]
    norm_num only
    rw [h]
    cases e <;> rfl
  · intro rest e h
    constructor
    · simp only [Ctap2Request.deserialize, Operation.tryFrom]
      norm_num only
      rw [h]
      cases e <;> rfl
    · simp only [Ctap2Request.deserialize, Operation.tryFrom]
      norm_num only
      rw [h]
      cases e <;> rfl

/-- Witness for C4 at concrete inputs: with a decoder reporting a missing
field, opcode 0x01 yields `MissingParameter`; with one reporting another
structural error, it yields `InvalidCbor`; the unknown opcode 0x3F yields
`InvalidCommand`. -/
theorem ctap2_error_mapping_witness :
    (@Ctap2Request.deserialize Unit Unit Unit Unit Unit missingFieldDecoder
      missingFieldDecoder missingFieldDecoder missingFieldDecoder [0x01] =
      .error .missingParameter)
    ∧ (@Ctap2Request.deserialize Unit Unit Unit Unit Unit customErrorDecoder
      customErrorDecoder customErrorDecoder customErrorDecoder [0x01] =
      .error .invalidCbor)
    ∧ (@Ctap2Request.deserialize Unit Unit Unit Unit Unit missingFieldDecoder
      missingFieldDecoder missingFieldDecoder missingFieldDecoder [0x3F] =
      .error .invalidCommand) := by
  refine ⟨?_, ?_, ?_⟩
  · have := (ctap2_error_mapping Unit Unit Unit Unit Unit missingFieldDecoder
      missingFieldDecoder missingFieldDecoder missingFieldDecoder).2.2.1 []
      .serdeMissingField rfl
    simpa using this
  · have := (ctap2_error_mapping Unit Unit Unit Unit Unit customErrorDecoder
      customErrorDecoder customErrorDecoder customErrorDecoder).2.2.1 []
      .serdeCustom rfl
    simpa using this
  · exact (ctap2_error_mapping Unit Unit Unit Unit Unit missingFieldDecoder
      missingFieldDecoder missingFieldDecoder missingFieldDecoder).2.1 0x3F []
      (by decide)

/-! ## Claims C5 and C6: CTAP2 response encoding -/

/-- C5: for every response value and every output buffer of capacity at
least 1, `Response::serialize` produces a well-formed frame and never fails
outward: some output always exists; when the CBOR body serialization
succeeds the output is the status byte 0 followed by the body (and for
`Reset` and `Vendor`, which carry no body, it is exactly the single byte 0);
when it fails the output is exactly the single `Error::Other` status byte
(0x7F). -/
theorem ctap2_response_frame (gi mc cp ga cm lb : Type)
    (s : ResponseSerializers gi mc cp ga cm lb) (n : Nat)
    (resp : Ctap2Response gi mc cp ga cm lb) (hn : 1 ≤ n) :
    (∃ out, Ctap2Response.serialize s n resp = some out)
    ∧ (∀ body, resp.bodyOutcome s (n - 1) = some body →
        Ctap2Response.serialize s n resp = some (0 :: body))
    ∧ (resp.bodyOutcome s (n - 1) = none →
        Ctap2Response.serialize s n resp = some [Ctap2Error.other.toU8])
    ∧ (Ctap2Error.other.toU8 = 0x7F)
    ∧ (resp = .reset ∨ resp = .vendor →
        Ctap2Response.serialize s n resp = some [0]) := by
  have hn0 : n ≠ 0 := by omega
  refine ⟨?_, ?_, ?_, rfl, ?_⟩
  · unfold Ctap2Response.serialize
    rw [if_neg hn0]
    cases hb : resp.bodyOutcome s (n - 1) with
    | some slice => exact ⟨0 :: slice, rfl⟩
    | none => exact ⟨[Ctap2Error.other.toU8], rfl⟩
  · intro body hb
    unfold Ctap2Response.serialize
    rw [if_neg hn0, hb]
  · intro hb
    unfold Ctap2Response.serialize
    rw [if_neg hn0, hb]
  · rintro (rfl | rfl) <;>
      · unfold Ctap2Response.serialize
        rw [if_neg hn0]
        rfl

/-- Witness for C5 at a concrete input: a `Reset` response into a buffer of
capacity 4 serializes to the single success byte. -/
theorem ctap2_response_frame_witness :
    (1 : Nat) ≤ 4 ∧
    Ctap2Response.serialize exampleSerializers 4 .reset = some [0] :=
  ⟨by decide,
   (ctap2_response_frame Unit Unit Unit Unit Unit LargeBlobsResponse
     exampleSerializers 4 .reset (by decide)).2.2.2.2 (Or.inl rfl)⟩

/-- C6 (as stated): a successful response whose CBOR body is an empty map
should be replaced by a zero-length body (a frame of exactly one status
byte).  It is not: `Response::serialize` keeps the body produced by
`cbor_serialize`, so a large-blobs response with no fields — whose body is
the empty-map encoding `0xA0` — yields the two-byte frame `[0x00, 0xA0]`,
not `[0x00]`. -/
theorem ctap2_empty_map_kept_counterexample :
    Ctap2Response.serialize exampleSerializers 16 (.largeBlobs ⟨none⟩) =
      some [0x00, 0xa0] ∧
    Ctap2Response.serialize exampleSerializers 16 (.largeBlobs ⟨none⟩) ≠
      some [0x00] := by
  decide

/-- C6 (amended): when the CBOR body of a successful response serializes to
the empty CBOR map, the encoded output is the status byte 0 followed by the
empty-map encoding `0xA0`; no zero-length-body replacement is performed
(shown with the modelled `cbor-smol` serializer of the field-less
large-blobs response, for every buffer capacity that fits the frame). -/
theorem ctap2_empty_map_body_kept (n : Nat) (hn : 2 ≤ n) :
    Ctap2Response.serialize exampleSerializers n (.largeBlobs ⟨none⟩) =
      some [0x00, 0xa0] := by
  have hn0 : n ≠ 0 := by omega
  unfold Ctap2Response.serialize
  rw [if_neg hn0]
  have hb : (Ctap2Response.largeBlobs (⟨none⟩ : LargeBlobsResponse) :
      Ctap2Response Unit Unit Unit Unit Unit LargeBlobsResponse).bodyOutcome
        exampleSerializers (n - 1) = some [0xa0] := by
    unfold Ctap2Response.bodyOutcome exampleSerializers
      LargeBlobsResponse.cborSerialize
    simp only [LargeBlobsResponse.encode]
    rw [if_pos (by simp; omega)]
  rw [hb]

/-- Witness for C6's amended theorem at a concrete capacity. -/
theorem ctap2_empty_map_body_kept_witness :
    (2 : Nat) ≤ 10 ∧
    Ctap2Response.serialize exampleSerializers 10 (.largeBlobs ⟨none⟩) =
      some [0x00, 0xa0] :=
  ⟨by decide, ctap2_empty_map_body_kept 10 (by decide)⟩

/-! ## Claim C10: CTAP1 Version quirk -/

/-- C10: a CTAP1 APDU (class 0) with instruction byte 0x03 is always
accepted as a Version request, regardless of `p1`, `p2` and the payload; and
serializing the Version response yields exactly the 6 ASCII bytes
`"U2F_V2"` (for every output capacity that fits them). -/
theorem ctap1_version_quirk :
    (∀ (p1 p2 : Nat) (data : List Nat),
        Ctap1Request.tryFrom ⟨0, 0x03, p1, p2, data⟩ = .ok .version)
    ∧ (∀ s : Nat, 6 ≤ s →
        Ctap1Response.serialize s [] (.version u2fV2) = .ok u2fV2)
    ∧ u2fV2 = ("U2F_V2").data.map Char.toNat := by
  refine ⟨?_, ?_, by decide⟩
  · intro p1 p2 data
    rfl
  · intro s hs
    show extendErr s [] u2fV2 = .ok u2fV2
    unfold extendErr
    rw [if_pos (by simp [u2fV2]; omega)]
    rfl

/-- Witness for C10 at concrete inputs: a Version probe with nonzero `p1`,
`p2` and a nonempty payload decodes to `Version`, and the response encodes
to the bytes of `"U2F_V2"` in a capacity-1024 buffer. -/
theorem ctap1_version_quirk_witness :
    Ctap1Request.tryFrom ⟨0, 0x03, 0xaa, 0xbb, [1, 2, 3]⟩ = .ok .version ∧
    ((6 : Nat) ≤ 1024 ∧
      Ctap1Response.serialize 1024 [] (.version u2fV2) = .ok u2fV2) :=
  ⟨ctap1_version_quirk.1 0xaa 0xbb [1, 2, 3],
   by decide, ctap1_version_quirk.2.1 1024 (by decide)⟩

/-! ## Claim C7: COSE key round-trip -/

/-- C7: for every concrete COSE public key variant and coordinates within
their 32-byte bounds, deserializing the serialization yields the key back
(`decode(encode(k)) == k`). -/
theorem cose_key_roundtrip :
    (∀ x y : List Nat, x.length ≤ 32 → y.length ≤ 32 →
        P256PublicKey.deserialize (P256PublicKey.serialize ⟨x, y⟩) =
          .ok ⟨x, y⟩
        ∧ EcdhEsHkdf256PublicKey.deserialize
            (EcdhEsHkdf256PublicKey.serialize ⟨x, y⟩) = .ok ⟨x, y⟩)
    ∧ (∀ x : List Nat, x.length ≤ 32 →
        Ed25519PublicKey.deserialize (Ed25519PublicKey.serialize ⟨x⟩) =
          .ok ⟨x⟩) := by
  constructor
  · intro x y hx hy
    constructor
    · simp [P256PublicKey.serialize, P256PublicKey.toRaw,
        RawPublicKey.serialize, P256PublicKey.deserialize,
        RawPublicKey.deserialize, nextKey, visitField, Label.tryFrom,
        Label.toI8, Kty.toI8, Alg.toI8, Crv.toI8, Kty.parse, Alg.parse,
        Crv.parse, parseBytes32, hx, hy, checkKeyConstants]
    · simp [EcdhEsHkdf256PublicKey.serialize, EcdhEsHkdf256PublicKey.toRaw,
        RawPublicKey.serialize, EcdhEsHkdf256PublicKey.deserialize,
        RawPublicKey.deserialize, nextKey, visitField, Label.tryFrom,
        Label.toI8, Kty.toI8, Alg.toI8, Crv.toI8, Kty.parse, Alg.parse,
        Crv.parse, parseBytes32, hx, hy, checkKeyConstants]
  · intro x hx
    simp [Ed25519PublicKey.serialize, Ed25519PublicKey.toRaw,
      RawPublicKey.serialize, Ed25519PublicKey.deserialize,
      RawPublicKey.deserialize, nextKey, visitField, Label.tryFrom,
      Label.toI8, Kty.toI8, Alg.toI8, Crv.toI8, Kty.parse, Alg.parse,
      Crv.parse, parseBytes32, hx, checkKeyConstants]

/-- Witness for C7 at concrete coordinates (32 bytes of 0xff, as in the
repository's own test vectors). -/
theorem cose_key_roundtrip_witness :
    ((List.replicate 32 0xff).length ≤ 32 ∧
      P256PublicKey.deserialize
        (P256PublicKey.serialize
          ⟨List.replicate 32 0xff, List.replicate 32 0xff⟩) =
        .ok ⟨List.replicate 32 0xff, List.replicate 32 0xff⟩) ∧
    Ed25519PublicKey.deserialize
        (Ed25519PublicKey.serialize ⟨List.replicate 32 0xff⟩) =
      .ok ⟨List.replicate 32 0xff⟩ :=
  ⟨⟨by decide,
    (cose_key_roundtrip.1 (List.replicate 32 0xff) (List.replicate 32 0xff)
      (by decide) (by decide)).1⟩,
   cose_key_roundtrip.2 (List.replicate 32 0xff) (by decide)⟩

/-! ## Claims C8 and C9: authenticator-data encoding -/

theorem extendUnwrap_pos {cap : Nat} {buf s : List Nat}
    (h : buf.length + s.length ≤ cap) :
    extendUnwrap cap buf s = some (buf ++ s) :=
  if_pos h

theorem pushUnwrap_pos {cap : Nat} {buf : List Nat} {v : Nat}
    (h : buf.length + 1 ≤ cap) :
    pushUnwrap cap buf v = some (buf ++ [v]) :=
  if_pos h

theorem extendUnwrap_length {cap : Nat} {buf s r : List Nat}
    (h : extendUnwrap cap buf s = some r) : r.length ≤ cap := by
  unfold extendUnwrap at h
  split_ifs at h with hc
  cases h
  simpa using hc

theorem pushUnwrap_length {cap : Nat} {buf : List Nat} {v : Nat} {r : List Nat}
    (h : pushUnwrap cap buf v = some r) : r.length ≤ cap := by
  unfold pushUnwrap at h
  split_ifs at h with hc
  cases h
  simpa using hc

/-- Model of `u16::to_be_bytes` yields 2 bytes. -/
theorem be16_length (v : Nat) : (be16 v).length = 2 := rfl

/-- Model of `u32::to_be_bytes` yields 4 bytes. -/
theorem be32_length (v : Nat) : (be32 v).length = 4 := rfl

/-- Model of `cborBool` yields 1 byte. -/
theorem cborBool_length (b : Bool) : (cborBool b).length = 1 := by
  rcases b <;> rfl

/-- The attested-credential-data serialization succeeds and is the exact
concatenation whenever the fields respect their `heapless` capacities. -/
theorem attestedCredentialData_serialize_eq (acd : AttestedCredentialData)
    (ha : acd.aaguid.length ≤ 16) (hcid : acd.credentialId.length ≤ 255)
    (hkey : acd.credentialPublicKey.length ≤ 256) :
    acd.serialize = some (acd.aaguid ++ be16 acd.credentialId.length ++
      acd.credentialId ++ acd.credentialPublicKey) := by
  have hmod : acd.credentialId.length % 0x10000 = acd.credentialId.length :=
    Nat.mod_eq_of_lt (by omega)
  unfold AttestedCredentialData.serialize
  rw [hmod]
  rw [extendUnwrap_pos (by simp [attestedCredentialDataLength]; omega)]
  simp only [Option.some_bind]
  rw [extendUnwrap_pos (by simp [attestedCredentialDataLength, be16]; omega)]
  simp only [Option.some_bind]
  rw [extendUnwrap_pos (by simp [attestedCredentialDataLength, be16]; omega)]
  simp only [Option.some_bind]
  rw [extendUnwrap_pos (by simp [attestedCredentialDataLength, be16]; omega)]
  simp

/-- C8: `AuthenticatorData::serialize` produces, in order, the rp-id hash
(32 bytes), the flags byte, the big-endian 32-bit sign count, then the
attested-credential-data segment if present, then the CBOR-encoded
extensions if present; and the attested-credential-data segment of a
MakeCredential response with a 16-byte aaguid is exactly
`aaguid || be16(N) || credential_id || cose_key_bytes`, the COSE key being
embedded as already-serialized bytes. -/
theorem authenticator_data_layout :
    (∀ acd : AttestedCredentialData, acd.aaguid.length = 16 →
        acd.credentialId.length ≤ 255 → acd.credentialPublicKey.length ≤ 256 →
        acd.serialize = some (acd.aaguid ++ be16 acd.credentialId.length ++
          acd.credentialId ++ acd.credentialPublicKey))
    ∧ (∀ (ε : Type) (encE : ε → List Nat)
        (ad : AuthenticatorData AttestedCredentialData ε)
        (acd : AttestedCredentialData),
        ad.attestedCredentialData = some acd →
        ad.rpIdHash.length = 32 →
        ad.signCount < 0x100000000 →
        acd.aaguid.length = 16 →
        acd.credentialId.length ≤ 255 →
        acd.credentialPublicKey.length ≤ 256 →
        (ad.extensions = none →
          AuthenticatorData.serialize AttestedCredentialData.serialize encE
            ad = some (ad.rpIdHash ++ [ad.flags] ++ be32 ad.signCount ++
              (acd.aaguid ++ be16 acd.credentialId.length ++
                acd.credentialId ++ acd.credentialPublicKey)))
        ∧ (∀ e, ad.extensions = some e → (encE e).length ≤ 128 →
            37 + (18 + acd.credentialId.length +
              acd.credentialPublicKey.length) + (encE e).length ≤ 676 →
            AuthenticatorData.serialize AttestedCredentialData.serialize encE
              ad = some (ad.rpIdHash ++ [ad.flags] ++ be32 ad.signCount ++
                (acd.aaguid ++ be16 acd.credentialId.length ++
                  acd.credentialId ++ acd.credentialPublicKey) ++
                encE e))) := by
  constructor
  · intro acd h16 hcid hkey
    exact attestedCredentialData_serialize_eq acd (by omega) hcid hkey
  · intro ε encE ad acd hacd hrp hsc h16 hcid hkey
    have hmod : ad.signCount % 0x100000000 = ad.signCount :=
      Nat.mod_eq_of_lt hsc
    constructor
    · intro hext
      unfold AuthenticatorData.serialize
      rw [hacd, hext, hmod]
      rw [extendUnwrap_pos (by simp [authenticatorDataLength]; omega)]
      simp only [Option.some_bind]
      rw [pushUnwrap_pos (by simp [authenticatorDataLength]; omega)]
      simp only [Option.some_bind]
      rw [extendUnwrap_pos (by simp [authenticatorDataLength, be32]; omega)]
      simp only [Option.some_bind]
      rw [attestedCredentialData_serialize_eq acd (by omega) hcid hkey]
      simp only [Option.some_bind]
      rw [extendUnwrap_pos (by simp [authenticatorDataLength, be32, be16]; omega)]
      simp only [Option.some_bind]
      simp
    · intro e hext hfit hcap
      unfold AuthenticatorData.serialize
      rw [hacd, hext, hmod]
      rw [extendUnwrap_pos (by simp [authenticatorDataLength]; omega)]
      simp only [Option.some_bind]
      rw [pushUnwrap_pos (by simp [authenticatorDataLength]; omega)]
      simp only [Option.some_bind]
      rw [extendUnwrap_pos (by simp [authenticatorDataLength, be32]; omega)]
      simp only [Option.some_bind]
      rw [attestedCredentialData_serialize_eq acd (by omega) hcid hkey]
      simp only [Option.some_bind]
      rw [extendUnwrap_pos (by simp [authenticatorDataLength, be32, be16]; omega)]
      simp only [Option.some_bind]
      rw [if_pos hfit]
      rw [extendUnwrap_pos (by simp [authenticatorDataLength, be32, be16]; omega)]
      simp

/-- Witness for C8 at concrete inputs: a make-credential authenticator-data
value with a 16-byte aaguid, a 3-byte credential id, a 2-byte COSE key and
no extensions. -/
theorem authenticator_data_layout_witness :
    ((List.replicate 16 1 : List Nat).length = 16 ∧
      ([9, 9, 9] : List Nat).length ≤ 255 ∧
      ([8, 8] : List Nat).length ≤ 256 ∧ (258 : Nat) < 0x100000000) ∧
    AuthenticatorData.serialize AttestedCredentialData.serialize
        (fun _ : Unit => [])
        ⟨List.replicate 32 7, 0x45, 258,
          some ⟨List.replicate 16 1, [9, 9, 9], [8, 8]⟩, none⟩ =
      some (List.replicate 32 7 ++ [0x45] ++ be32 258 ++
        (List.replicate 16 1 ++ be16 3 ++ [9, 9, 9] ++ [8, 8])) :=
  ⟨⟨by decide, by decide, by decide, by decide⟩,
   (authenticator_data_layout.2 Unit (fun _ => [])
      ⟨List.replicate 32 7, 0x45, 258,
        some ⟨List.replicate 16 1, [9, 9, 9], [8, 8]⟩, none⟩
      ⟨List.replicate 16 1, [9, 9, 9], [8, 8]⟩
      rfl (by decide) (by decide) (by decide) (by decide) (by decide)).1 rfl⟩

set_option maxRecDepth 4000 in
/-- C9 (as stated): a value whose encoded length exceeds the fixed output
capacity should make `serialize` report an encode error instead of aborting.
It does not: the capacity-checked write fails and the source `.unwrap()`s
it, i.e. the program panics (modelled as `none`); no error value is
reported. -/
theorem authenticator_data_overflow_panic_counterexample :
    AuthenticatorData.serialize AttestedCredentialData.serialize
      bigExtensionsEnc overflowAuthData = none ∧
    authenticatorDataLength < 32 + 1 + 4 + (16 + 2 + 255 + 256) + 128 := by
  constructor
  · unfold AuthenticatorData.serialize overflowAuthData
    rw [extendUnwrap_pos (by
      simp only [List.length_nil, List.length_replicate, authenticatorDataLength]
      omega)]
    simp only [Option.some_bind]
    rw [pushUnwrap_pos (by
      simp only [List.length_append, List.length_nil, List.length_replicate,
        authenticatorDataLength]
      omega)]
    simp only [Option.some_bind]
    rw [extendUnwrap_pos (by
      simp only [List.length_append, List.length_nil, List.length_cons,
        List.length_replicate, be32_length, authenticatorDataLength]
      omega)]
    simp only [Option.some_bind]
    rw [attestedCredentialData_serialize_eq _
      (by simp only [List.length_replicate]; omega)
      (by simp only [List.length_replicate]; omega)
      (by simp only [List.length_replicate]; omega)]
    simp only [Option.some_bind]
    rw [extendUnwrap_pos (by
      simp only [List.length_append, List.length_nil, List.length_cons,
        List.length_replicate, be32_length, be16_length, authenticatorDataLength]
      omega)]
    simp only [Option.some_bind]
    rw [if_pos (by
      simp only [bigExtensionsEnc, List.length_replicate]
      omega)]
    unfold extendUnwrap
    rw [if_neg (by
      simp only [bigExtensionsEnc, List.length_append, List.length_nil,
        List.length_cons, List.length_replicate, be32_length, be16_length,
        authenticatorDataLength]
      omega)]
  · decide

/-- The length of a `cborTextShort` encoding. -/
theorem cborTextShort_length (s : String) :
    (cborTextShort s).length = 1 + s.data.length := by
  simp only [cborTextShort, List.length_cons, List.length_map]
  omega

/-- A `u8` value encodes to at most 2 CBOR bytes. -/
theorem cborUint_length_le {v : Nat} (h : v < 256) :
    (cborUint v).length ≤ 2 := by
  unfold cborUint
  split_ifs
  · simp
  · simp

/-- The make-credential extensions record encodes to at most 42 bytes (and
in particular always fits the 128-byte scratch buffer). -/
theorem mcExtensions_encode_length (e : McExtensions)
    (h : ∀ v, e.credProtect = some v → v < 256) :
    e.encode.length ≤ 42 := by
  have d1 : ("credProtect").data.length = 11 := by decide
  have d2 : ("hmac-secret").data.length = 11 := by decide
  have d3 : ("largeBlobKey").data.length = 12 := by decide
  rcases e with ⟨cp, hs, lbk⟩
  rcases cp with _ | v <;> rcases hs with _ | b1 <;> rcases lbk with _ | b2 <;>
    first
      | (have hvl := cborUint_length_le (h _ rfl)
         simp only [McExtensions.encode, List.length_cons, List.length_append,
           List.length_nil, cborTextShort_length, cborBool_length]
         omega)
      | (simp only [McExtensions.encode, List.length_cons, List.length_append,
           List.length_nil, cborTextShort_length, cborBool_length]
         omega)

/-- C9 (amended): every write into the fixed-capacity output buffer is
capacity-checked, so any produced output respects the buffer bound (no
overflow ever occurs) — but an over-capacity write panics through the
`.unwrap()` (the counterexample) rather than reporting an encode error.  For
the concrete MakeCredential instantiation (attested credential data and
make-credential extensions within their type capacities), the encoded length
never exceeds the capacities and `serialize` always succeeds. -/
theorem authenticator_data_capacity_checked :
    (∀ (α ε : Type) (serA : α → Option (List Nat)) (encE : ε → List Nat)
        (ad : AuthenticatorData α ε) (out : List Nat),
        AuthenticatorData.serialize serA encE ad = some out →
        out.length ≤ authenticatorDataLength)
    ∧ (∀ ad : AuthenticatorData AttestedCredentialData McExtensions,
        ad.rpIdHash.length ≤ 32 →
        (∀ acd, ad.attestedCredentialData = some acd →
          acd.aaguid.length ≤ 16 ∧ acd.credentialId.length ≤ 255 ∧
            acd.credentialPublicKey.length ≤ 256) →
        (∀ e v, ad.extensions = some e → e.credProtect = some v → v < 256) →
        ∃ out, AuthenticatorData.serialize AttestedCredentialData.serialize
          McExtensions.encode ad = some out) := by
  constructor
  · intro α ε serA encE ad out h
    unfold AuthenticatorData.serialize at h
    rcases Option.bind_eq_some.1 h with ⟨b1, hb1, h⟩
    rcases Option.bind_eq_some.1 h with ⟨b2, hb2, h⟩
    rcases Option.bind_eq_some.1 h with ⟨b3, hb3, h⟩
    rcases Option.bind_eq_some.1 h with ⟨b4, hb4, h⟩
    have hb4len : b4.length ≤ authenticatorDataLength := by
      rcases hacd : ad.attestedCredentialData with _ | acd
      · rw [hacd] at hb4
        cases hb4
        exact extendUnwrap_length hb3
      · rw [hacd] at hb4
        rcases Option.bind_eq_some.1 hb4 with ⟨sA, _, hb4s⟩
        exact extendUnwrap_length hb4s
    rcases hext : ad.extensions with _ | e
    · rw [hext] at h
      cases h
      exact hb4len
    · rw [hext] at h
      simp only [] at h
      split_ifs at h
      exact extendUnwrap_length h
  · intro ad hrp hacds hexts
    unfold AuthenticatorData.serialize
    rw [extendUnwrap_pos (by
      simp only [List.length_nil, authenticatorDataLength]; omega)]
    simp only [Option.some_bind]
    rw [pushUnwrap_pos (by
      simp only [List.length_append, List.length_nil, authenticatorDataLength]
      omega)]
    simp only [Option.some_bind]
    rw [extendUnwrap_pos (by
      simp only [List.length_append, List.length_nil, List.length_cons,
        be32_length, authenticatorDataLength]
      omega)]
    simp only [Option.some_bind]
    rcases hacd : ad.attestedCredentialData with _ | acd
    · simp only [Option.some_bind]
      rcases hext : ad.extensions with _ | e
      · simp only []
        exact ⟨_, rfl⟩
      · have hel := mcExtensions_encode_length e
          (fun v hv => hexts e v hext hv)
        simp only []
        rw [if_pos (by omega)]
        rw [extendUnwrap_pos (by
          simp only [List.length_append, List.length_nil, List.length_cons,
            be32_length, authenticatorDataLength]
          omega)]
        exact ⟨_, rfl⟩
    · obtain ⟨ha16, hcid, hkey⟩ := hacds acd hacd
      simp only []
      rw [attestedCredentialData_serialize_eq acd ha16 hcid hkey]
      simp only [Option.some_bind]
      rw [extendUnwrap_pos (by
        simp only [List.length_append, List.length_nil, List.length_cons,
          be32_length, be16_length, authenticatorDataLength]
        omega)]
      simp only [Option.some_bind]
      rcases hext : ad.extensions with _ | e
      · simp only []
        exact ⟨_, rfl⟩
      · have hel := mcExtensions_encode_length e
          (fun v hv => hexts e v hext hv)
        simp only []
        rw [if_pos (by omega)]
        rw [extendUnwrap_pos (by
          simp only [List.length_append, List.length_nil, List.length_cons,
            be32_length, be16_length, authenticatorDataLength]
          omega)]
        exact ⟨_, rfl⟩

/-- Witness for C9's amended theorem at concrete inputs: a small
authenticator-data value serializes within bounds, and a full
make-credential value with extensions succeeds. -/
theorem authenticator_data_capacity_checked_witness :
    (AuthenticatorData.serialize (fun _ : Unit => some []) (fun _ : Unit => [])
        ⟨[], 0, 0, none, none⟩ = some [0, 0, 0, 0, 0]
      ∧ ([0, 0, 0, 0, 0] : List Nat).length ≤ authenticatorDataLength)
    ∧ (∃ out, AuthenticatorData.serialize AttestedCredentialData.serialize
        McExtensions.encode
        ⟨List.replicate 32 2, 0x41, 7, some ⟨List.replicate 16 3, [1, 2], [9]⟩,
          some ⟨some 2, some true, none⟩⟩ = some out) :=
  ⟨⟨rfl,
    authenticator_data_capacity_checked.1 Unit Unit (fun _ => some [])
      (fun _ => []) ⟨[], 0, 0, none, none⟩ [0, 0, 0, 0, 0] rfl⟩,
   authenticator_data_capacity_checked.2
     ⟨List.replicate 32 2, 0x41, 7, some ⟨List.replicate 16 3, [1, 2], [9]⟩,
       some ⟨some 2, some true, none⟩⟩
     (by decide)
     (fun acd hacd => by cases hacd; exact ⟨by decide, by decide, by decide⟩)
     (fun e v he hv => by cases he; cases hv; decide)⟩

/-! ## Claim C1: canonical-order COSE map decoding -/

/-- Decoding the canonical 5-field map followed by any suffix: the five known
fields are consumed in order, and the outcome is determined by the key of
the first suffix entry — absent (success), unknown (success, remaining
entries never read), known label (the wrong-order/duplicate error), or
unparsable as `i8` (that parse error). -/
theorem rawPublicKey_deserialize_canonical_append (x y : List Nat)
    (hx : x.length ≤ 32) (hy : y.length ≤ 32) (suf : List Entry) :
    RawPublicKey.deserialize (canonicalP256Entries x y ++ suf) =
      match nextKey suf with
      | .error e => .error e
      | .ok c =>
        match c.key with
        | .label _ => .error (.custom wrongOrderMsg)
        | _ => .ok (rawP256 x y) := by
  rcases suf with _ | ⟨⟨k, v⟩, rest⟩
  · simp [canonicalP256Entries, canonicalKeys, p256Entry,
      RawPublicKey.deserialize, visitField, nextKey, Label.tryFrom, Kty.parse,
      Alg.parse, Crv.parse, parseBytes32, hx, hy, rawP256]
  · by_cases hk : -128 ≤ k ∧ k ≤ 127
    · rcases hl : Label.tryFrom k with _ | lab <;>
        · simp only [Label.tryFrom] at hl
          simp [canonicalP256Entries, canonicalKeys, p256Entry,
            RawPublicKey.deserialize, visitField, nextKey, Label.tryFrom,
            Kty.parse, Alg.parse, Crv.parse, parseBytes32, hx, hy, hk, hl,
            rawP256]
    · simp [canonicalP256Entries, canonicalKeys, p256Entry,
        RawPublicKey.deserialize, visitField, nextKey, Label.tryFrom,
        Kty.parse, Alg.parse, Crv.parse, parseBytes32, hx, hy, hk, rawP256]

set_option maxHeartbeats 2000000 in
/-- Out of the 120 permutations of the 5 canonical keys, decoding succeeds
exactly for the canonical order; every other order fails with the
wrong-order/duplicates error. -/
theorem cose_perm_main (x y : List Nat) (hx : x.length ≤ 32)
    (hy : y.length ≤ 32) (ks : List Int) (hperm : ks.Perm canonicalKeys) :
    (RawPublicKey.deserialize (ks.map (p256Entry x y)) = .ok (rawP256 x y) ↔
      ks = canonicalKeys)
    ∧ (ks ≠ canonicalKeys →
      RawPublicKey.deserialize (ks.map (p256Entry x y)) =
        .error (.custom wrongOrderMsg)) := by
  have hks : ks ∈ canonicalKeys.permutations' := List.mem_permutations'.2 hperm
  fin_cases hks <;>
    simp [canonicalKeys, p256Entry, RawPublicKey.deserialize, visitField,
      nextKey, Label.tryFrom, Kty.parse, Alg.parse, Crv.parse, parseBytes32,
      hx, hy, rawP256]

/-- C1 (amended): for the canonical-order COSE map decoder instantiated at a
full 5-field P-256 key map: (i) out of the 5! permutations of the five known
fields, decoding succeeds exactly for the identity permutation, and every
other permutation fails — at the `RawPublicKey` level and at the concrete
key decoders built on it — with the wrong-order/duplicates error; (ii) a
known key appended after the canonical fields (a duplicate) fails with the
same error; (iii) extra unknown key/value pairs appended after all matched
known fields — keys that are integers in the `i8` range and not among the
five known labels, values arbitrary — leave decoding successful with the
same value (the key parser rejects trailing keys outside the `i8` range, the
counterexample). -/
theorem cose_canonical_order (x y : List Nat) (hx : x.length ≤ 32)
    (hy : y.length ≤ 32) :
    (∀ l : List Entry, l.Perm (canonicalP256Entries x y) →
      (RawPublicKey.deserialize l = .ok (rawP256 x y) ↔
        l = canonicalP256Entries x y)
      ∧ (l ≠ canonicalP256Entries x y →
        RawPublicKey.deserialize l = .error (.custom wrongOrderMsg)
        ∧ P256PublicKey.deserialize l = .error (.custom wrongOrderMsg)))
    ∧ (∀ (k : Int) (v : CborValue), Label.tryFrom k ≠ none →
      RawPublicKey.deserialize (canonicalP256Entries x y ++ [(k, v)]) =
        .error (.custom wrongOrderMsg))
    ∧ (∀ extra : List Entry,
      (∀ e ∈ extra, -128 ≤ e.1 ∧ e.1 ≤ 127 ∧ Label.tryFrom e.1 = none) →
      RawPublicKey.deserialize (canonicalP256Entries x y ++ extra) =
        .ok (rawP256 x y)
      ∧ P256PublicKey.deserialize (canonicalP256Entries x y ++ extra) =
        .ok ⟨x, y⟩) := by
  have hmapkeys : (canonicalP256Entries x y).map Prod.fst = canonicalKeys := by
    simp [canonicalP256Entries, canonicalKeys, p256Entry]
  refine ⟨?_, ?_, ?_⟩
  · intro l hperm
    have hentry : ∀ e ∈ l, e = p256Entry x y e.1 := by
      intro e he
      have hmem := hperm.mem_iff.mp he
      simp only [canonicalP256Entries, canonicalKeys, List.map_cons,
        List.map_nil, List.mem_cons, List.not_mem_nil, or_false] at hmem
      rcases hmem with rfl | rfl | rfl | rfl | rfl <;> rfl
    obtain ⟨ks, hkperm, rfl⟩ :
        ∃ ks : List Int, List.Perm ks canonicalKeys ∧
          l = ks.map (p256Entry x y) := by
      refine ⟨l.map Prod.fst, ?_, ?_⟩
      · have h2 := hperm.map Prod.fst
        rwa [hmapkeys] at h2
      · have h3 : l.map id = l.map (fun e => p256Entry x y e.1) :=
          List.map_congr_left (fun e he => by rw [← hentry e he]; rfl)
        rw [List.map_id] at h3
        rw [List.map_map]
        exact h3
    have hmain := cose_perm_main x y hx hy ks hkperm
    have hproj : (ks.map (p256Entry x y)).map Prod.fst = ks := by
      rw [List.map_map]
      calc ks.map (Prod.fst ∘ p256Entry x y) = ks.map id :=
            List.map_congr_left (fun a _ => rfl)
        _ = ks := List.map_id ks
    have hiff : ks.map (p256Entry x y) = canonicalP256Entries x y ↔
        ks = canonicalKeys := by
      constructor
      · intro hmeq
        have h4 := congrArg (List.map Prod.fst) hmeq
        rw [hmapkeys, hproj] at h4
        exact h4
      · intro hks
        rw [hks]
        rfl
    constructor
    · rw [hiff]
      exact hmain.1
    · intro hne
      have hkne : ks ≠ canonicalKeys := fun hh => hne (hiff.mpr hh)
      have hraw := hmain.2 hkne
      refine ⟨hraw, ?_⟩
      simp [P256PublicKey.deserialize, hraw]
  · intro k v hkl
    obtain ⟨lab, hlab⟩ : ∃ lab, Label.tryFrom k = some lab := by
      rcases hopt : Label.tryFrom k with _ | lab
      · exact absurd hopt hkl
      · exact ⟨lab, rfl⟩
    have hk5 : k = 1 ∨ k = 3 ∨ k = -1 ∨ k = -2 ∨ k = -3 := by
      simp only [Label.tryFrom] at hlab
      split_ifs at hlab with a1 a2 a3 a4 a5
      · exact Or.inl a1
      · exact Or.inr (Or.inl a2)
      · exact Or.inr (Or.inr (Or.inl a3))
      · exact Or.inr (Or.inr (Or.inr (Or.inl a4)))
      · exact Or.inr (Or.inr (Or.inr (Or.inr a5)))
    have hrng : -128 ≤ k ∧ k ≤ 127 := by
      rcases hk5 with rfl | rfl | rfl | rfl | rfl <;> constructor <;> decide
    rw [rawPublicKey_deserialize_canonical_append x y hx hy [(k, v)]]
    simp [nextKey, hrng, hlab]
  · intro extra hextra
    have hraw : RawPublicKey.deserialize (canonicalP256Entries x y ++ extra) =
        .ok (rawP256 x y) := by
      rw [rawPublicKey_deserialize_canonical_append x y hx hy extra]
      rcases extra with _ | ⟨⟨k, v⟩, rest⟩
      · simp [nextKey]
      · obtain ⟨hk1, hk2, hk3⟩ := hextra (k, v) (by simp)
        simp only [] at hk1 hk2 hk3
        simp [nextKey, hk1, hk2, hk3]
    refine ⟨hraw, ?_⟩
    simp [P256PublicKey.deserialize, hraw, checkKeyConstants, rawP256]

/-- C1 (as stated): appending an arbitrary extra unknown key/value pair
after all matched known fields should leave decoding successful.  It does
not: a trailing key outside the `i8` range (here 128) makes the key parser
fail, so decoding errors instead of succeeding. -/
theorem cose_unknown_key_out_of_range_counterexample :
    RawPublicKey.deserialize
        (canonicalP256Entries (List.replicate 32 0xff) (List.replicate 32 0xff)
          ++ [(128, CborValue.int 0)]) = .error .badI8Key ∧
    P256PublicKey.deserialize
        (canonicalP256Entries (List.replicate 32 0xff) (List.replicate 32 0xff)
          ++ [(128, CborValue.int 0)]) = .error .badI8Key := by
  decide

/-- Witness for C1 at concrete inputs (the repository's own test shape:
coordinates of 32 `0xff` bytes, unknown trailing keys 42 and 24): the
canonical order decodes, trailing unknown `i8` keys are tolerated with the
same value, and a duplicated known key fails with the wrong-order error. -/
theorem cose_canonical_order_witness :
    ((List.replicate 32 0xff : List Nat).length ≤ 32) ∧
    RawPublicKey.deserialize
        (canonicalP256Entries (List.replicate 32 0xff)
          (List.replicate 32 0xff)) =
      .ok (rawP256 (List.replicate 32 0xff) (List.replicate 32 0xff)) ∧
    RawPublicKey.deserialize
        (canonicalP256Entries (List.replicate 32 0xff) (List.replicate 32 0xff)
          ++ [(42, CborValue.text ("foobar")), (24, CborValue.text ("foobar"))]) =
      .ok (rawP256 (List.replicate 32 0xff) (List.replicate 32 0xff)) ∧
    P256PublicKey.deserialize
        (canonicalP256Entries (List.replicate 32 0xff) (List.replicate 32 0xff)
          ++ [(42, CborValue.text ("foobar")), (24, CborValue.text ("foobar"))]) =
      .ok ⟨List.replicate 32 0xff, List.replicate 32 0xff⟩ ∧
    RawPublicKey.deserialize
        (canonicalP256Entries (List.replicate 32 0xff) (List.replicate 32 0xff)
          ++ [(1, CborValue.int 2)]) =
      .error (.custom wrongOrderMsg) :=
  ⟨by decide,
   ((cose_canonical_order (List.replicate 32 0xff) (List.replicate 32 0xff)
        (by decide) (by decide)).1
      (canonicalP256Entries (List.replicate 32 0xff) (List.replicate 32 0xff))
      (List.Perm.refl _)).1.mpr rfl,
   ((cose_canonical_order (List.replicate 32 0xff) (List.replicate 32 0xff)
        (by decide) (by decide)).2.2
      [(42, CborValue.text ("foobar")), (24, CborValue.text ("foobar"))]
      (by decide)).1,
   ((cose_canonical_order (List.replicate 32 0xff) (List.replicate 32 0xff)
        (by decide) (by decide)).2.2
      [(42, CborValue.text ("foobar")), (24, CborValue.text ("foobar"))]
      (by decide)).2,
   (cose_canonical_order (List.replicate 32 0xff) (List.replicate 32 0xff)
        (by decide) (by decide)).2.1 1 (CborValue.int 2) (by decide)⟩
